import Mathlib

/-!
Verification development for an AI chat backend (Hertz + Eino demo).

The Go services under `internal/service` and `internal/handler` are embedded
shallowly: the relational store (GORM over MySQL) becomes an explicit `DB`
state threaded through each operation, soft deletion is modelled as removal
from the visible row set (GORM filters soft-deleted rows out of every query
made by this code), and the external AI provider is a function parameter.
Timestamps are naturals drawn from a monotone clock carried in the state, as
GORM fills `CreatedAt` at insertion time.
-/

namespace ChatBackend

/-- A row of the `messages` table (`internal/model`, struct `Message`).
Only the columns this code reads or writes are carried. -/
structure Message where
  id : Nat
  conversationId : Nat
  role : String
  content : String
  createdAt : Nat
  deriving Repr, DecidableEq

/-- A row of the `conversations` table (`internal/model`, struct `Conversation`). -/
structure Conversation where
  id : Nat
  userId : Nat
  title : String
  createdAt : Nat
  updatedAt : Nat
  deriving Repr, DecidableEq

/-- A row of the `users` table (`internal/model`, struct `User`). -/
structure User where
  id : Nat
  email : String
  password : String
  nickname : String
  avatar : String
  isActive : Bool
  deriving Repr, DecidableEq

/-- The visible database state: the three tables (soft-deleted rows removed,
since every query in the code sees only live rows), a fresh primary-key
counter, and a clock used for `CreatedAt` columns. -/
structure DB where
  users : List User
  conversations : List Conversation
  messages : List Message
  nextId : Nat
  now : Nat
  deriving Repr, DecidableEq

/-- Errors surfaced by the services, abstracting the Go `error` values. -/
inductive ServiceError where
  /-- `gorm.ErrRecordNotFound`, returned by `First` when no row matches. -/
  | recordNotFound
  /-- `errors.New("email already exists")` in `UserService.Register`. -/
  | emailExists
  /-- An error from the AI provider path (`GenerateResponse` / stream). -/
  | upstream (msg : String)
  /-- An error returned by the streaming callback (`onChunk`). -/
  | callbackFailed (msg : String)
  /-- A persistence failure injected into a transactional step. -/
  | dbFailure (msg : String)
  deriving Repr, DecidableEq

/-- `s.db.Where("id = ? AND user_id = ?", conversationID, userID).First(&conversation)`:
the ownership-scoped lookup used by GetConversation, GetMessages, SendMessage
and StreamChat. `none` is `gorm.ErrRecordNotFound`. -/
def firstConversationOwned (db : DB) (conversationId userId : Nat) : Option Conversation :=
  db.conversations.find? (fun c => c.id == conversationId && c.userId == userId)

/-- `s.db.Where("email = ?", req.Email).First(&existingUser)` in Register. -/
def firstUserByEmail (db : DB) (email : String) : Option User :=
  db.users.find? (fun u => u.email == email)

/-- `s.db.Create(&message)`: inserts a message row, GORM filling the primary
key and `CreatedAt`; the clock then advances. -/
def createMessage (db : DB) (conversationId : Nat) (role content : String) :
    Message × DB :=
  let m : Message := ⟨db.nextId, conversationId, role, content, db.now⟩
  (m, { db with messages := db.messages ++ [m], nextId := db.nextId + 1, now := db.now + 1 })

/-- Stable insertion of a message into a list sorted by `created_at` ascending. -/
def insertByCreatedAt (m : Message) : List Message → List Message
  | [] => [m]
  | x :: xs =>
    if x.createdAt ≤ m.createdAt then x :: insertByCreatedAt m xs
    else m :: x :: xs

/-- `Order("created_at ASC")`: stable sort of the selected rows by the
`created_at` column, ascending. -/
def orderByCreatedAtAsc : List Message → List Message
  | [] => []
  | x :: xs => insertByCreatedAt x (orderByCreatedAtAsc xs)

/-- `s.db.Where("conversation_id = ?", conversationID).Order("created_at ASC").Limit(20).Find(&historyMessages)`:
the history query of both SendMessage (chat_service.go:154) and StreamChat
(chat_service.go:220). `LIMIT` applies after `ORDER BY`, so this keeps the
first 20 rows in ascending creation order. -/
def historyMessages (db : DB) (conversationId : Nat) : List Message :=
  (orderByCreatedAtAsc (db.messages.filter (fun m => m.conversationId == conversationId))).take 20

/-- `schema.RoleType` of the eino framework, restricted to the three values
this code uses. -/
inductive RoleType where
  | user
  | assistant
  | system
  deriving Repr, DecidableEq

/-- `schema.Message`: one role-tagged turn handed to the AI model. -/
structure SchemaMessage where
  role : RoleType
  content : String
  deriving Repr, DecidableEq

/-- The `switch msg.Role` mapping of a stored role string to `schema.RoleType`,
identical in SendMessage (chat_service.go:162-171) and StreamChat
(chat_service.go:228-237); the `default` branch yields `schema.User`. -/
def mapRole (r : String) : RoleType :=
  if r == "user" then RoleType.user
  else if r == "assistant" then RoleType.assistant
  else if r == "system" then RoleType.system
  else RoleType.user

/-- Conversion of one stored message to the AI model format. -/
def toAIMessage (m : Message) : SchemaMessage :=
  ⟨mapRole m.role, m.content⟩

/-- The `aiMessages` slice both SendMessage and StreamChat build: the history
query result mapped turn-by-turn through the role switch. -/
def assembleAIInput (db : DB) (conversationId : Nat) : List SchemaMessage :=
  (historyMessages db conversationId).map toAIMessage

/-! ## Pagination parameter handling (`internal/handler/chat_handler.go`) -/

/-- `if page < 1 { page = 1 }` in GetConversations (line 54) and GetMessages
(line 217). Parsed from `strconv.Atoi`, hence an `Int`. -/
def clampPage (page : Int) : Int :=
  if page < 1 then 1 else page

/-- `if pageSize < 1 || pageSize > 100 { pageSize = 20 }` in
ChatHandler.GetConversations (chat_handler.go:57-59). -/
def effectivePageSizeConversations (pageSize : Int) : Int :=
  if pageSize < 1 || pageSize > 100 then 20 else pageSize

/-- `if pageSize < 1 || pageSize > 100 { pageSize = 50 }` in
ChatHandler.GetMessages (chat_handler.go:220-222). -/
def effectivePageSizeMessages (pageSize : Int) : Int :=
  if pageSize < 1 || pageSize > 100 then 50 else pageSize

/-! ## UserService.Register (`internal/service/user_service.go:39-75`) -/

/-- Modelled from the spec: `utils.HashPassword` (bcrypt-grade hashing, an
out-of-scope primitive whose source is not under src/); abstracted as an
injective tagging of the plaintext. Its possible failure is never reached by
the claims treated here (the Conflict path exits before hashing). -/
def hashPassword (p : String) : String :=
  "hashed:" ++ p

/-- Modelled from the spec: `utils.GenerateJWT` (a signed token keyed to the
user ID, an out-of-scope primitive whose source is not under src/). -/
def generateJWT (userId : Nat) : String :=
  "jwt:" ++ toString userId

/-- `UserService.Register`: fail with the conflict error when a row with the
email already exists, else hash the password, insert the user row (GORM
filling the primary key), issue a token, and return token and user. -/
def register (db : DB) (email password nickname : String) :
    Except ServiceError (String × User) × DB :=
  match firstUserByEmail db email with
  | some _ => (Except.error ServiceError.emailExists, db)
  | none =>
    let hashed := hashPassword password
    let u : User := ⟨db.nextId, email, hashed, nickname, "", true⟩
    let db1 : DB := { db with users := db.users ++ [u], nextId := db.nextId + 1, now := db.now + 1 }
    let token := generateJWT u.id
    (Except.ok (token, u), db1)

/-! ## ChatService.DeleteConversation (`internal/service/chat_service.go:83-105`)

The method opens a transaction, deletes the messages of the conversation
(no ownership filter on this statement), deletes the conversation scoped by
`id AND user_id`, and commits; any error rolls the whole transaction back.
Persistence failures of the three steps are injected through an oracle so
that atomicity can be stated over every failure pattern. -/

/-- The three fallible steps of the delete transaction. -/
inductive TxStep where
  | delMessages
  | delConversation
  | commit
  deriving Repr, DecidableEq

/-- `ChatService.DeleteConversation`. `fails` says which transactional steps
report a persistence error; a reported error triggers `tx.Rollback()`, leaving
the database unchanged. Note the message delete filters only on
`conversation_id` and a delete matching zero rows is not an error in GORM. -/
def deleteConversation (db : DB) (userId conversationId : Nat)
    (fails : TxStep → Bool) : Option ServiceError × DB :=
  if fails TxStep.delMessages then
    (some (ServiceError.dbFailure "delete messages"), db)
  else
    let tx1 : DB := { db with
      messages := db.messages.filter (fun m => !(m.conversationId == conversationId)) }
    if fails TxStep.delConversation then
      (some (ServiceError.dbFailure "delete conversation"), db)
    else
      let tx2 : DB := { tx1 with
        conversations := tx1.conversations.filter
          (fun c => !(c.id == conversationId && c.userId == userId)) }
      if fails TxStep.commit then
        (some (ServiceError.dbFailure "commit"), db)
      else
        (none, tx2)

/-! ## ChatService.SendMessage (`internal/service/chat_service.go:135-198`) -/

/-- `AIService.GenerateResponse` (service layer around `model.Generate`): a
transport error is wrapped and surfaced; a nil response or empty content
becomes the error `no response generated`. The provider call itself is the
`generate` argument. -/
def generateResponse (generate : Except String String) : Except ServiceError String :=
  match generate with
  | Except.error e => Except.error (ServiceError.upstream ("failed to generate response: " ++ e))
  | Except.ok s =>
    if s == "" then Except.error (ServiceError.upstream "no response generated")
    else Except.ok s

/-- `s.db.Model(&conversation).Update("updated_at", t)`: set the
`updated_at` column of the row with the conversation's primary key. -/
def updateConversationTimestamp (db : DB) (conversationId : Nat) (t : Nat) : DB :=
  { db with conversations :=
      (db.conversations.map fun c =>
        if c.id == conversationId then { c with updatedAt := t } else c) }

/-- Result of `SendMessage`: the two returned message pointers, the returned
error, and the database state it leaves behind. -/
structure SendResult where
  userMsg : Option Message
  assistantMsg : Option Message
  err : Option ServiceError
  db : DB
  deriving Repr, DecidableEq

/-- `ChatService.SendMessage`: verify ownership, persist the user message,
build the history and AI input, run the single-shot generate (`provider` is
the external `model.Generate` outcome as a function of the assembled input),
persist the assistant message, bump the conversation's `updated_at` to the
assistant message's `CreatedAt`, and return both messages. On an AI error the
already-persisted user message is returned alongside the error. -/
def sendMessage (db : DB) (userId conversationId : Nat) (content : String)
    (provider : List SchemaMessage → Except String String) : SendResult :=
  match firstConversationOwned db conversationId userId with
  | none => ⟨none, none, some ServiceError.recordNotFound, db⟩
  | some _ =>
    let (userMessage, db1) := createMessage db conversationId "user" content
    let aiMessages := assembleAIInput db1 conversationId
    match generateResponse (provider aiMessages) with
    | Except.error e => ⟨some userMessage, none, some e, db1⟩
    | Except.ok aiResponse =>
      let (assistantMessage, db2) := createMessage db1 conversationId "assistant" aiResponse
      let db3 := updateConversationTimestamp db2 conversationId assistantMessage.createdAt
      ⟨some userMessage, some assistantMessage, none, db3⟩

/-! ## ChatService.StreamChat (`internal/service/chat_service.go:201-282`)

`AIService.StreamResponse` feeds two conduits (a chunk channel and an error
channel) from a background task; the service loops in a `select` over the two.
A run of that loop is abstracted as the sequence of receive events the
`select` performs, quantified over all interleavings the race allows. -/

/-- One receive event of the streaming loop's `select`. -/
inductive StreamEvent where
  /-- A chunk arrived on the chunk conduit (`chunk, ok := <-respChan`, ok). -/
  | chunk (s : String)
  /-- A receive on the error conduit (`err := <-errorChan`); `none` is a nil
  error (closed or nil send), which the loop ignores. -/
  | errSig (e : Option String)
  /-- The chunk conduit is closed (`ok` false): normal completion. -/
  | closed
  deriving Repr, DecidableEq

/-- How the streaming loop ended. -/
inductive StreamOutcome where
  /-- The chunk conduit closed; `full` is the accumulated response. -/
  | done (full : String)
  /-- The loop aborted: the callback failed or the error conduit yielded a
  non-nil error. -/
  | errored (e : ServiceError)
  deriving Repr, DecidableEq

/-- The `for { select { ... } }` loop of StreamChat (chat_service.go:248-264):
a chunk is accumulated and forwarded to the callback, a callback error aborts
the loop, a nil error signal is ignored, a non-nil error signal aborts the
loop, and closure of the chunk conduit ends it normally. `none` means the
given event schedule ended with the loop still blocked on the select. -/
def runStreamLoop (callback : String → Option String) :
    List StreamEvent → String → Option StreamOutcome
  | [], _ => none
  | StreamEvent.closed :: _, acc => some (StreamOutcome.done acc)
  | StreamEvent.chunk s :: rest, acc =>
    match callback s with
    | some e => some (StreamOutcome.errored (ServiceError.callbackFailed e))
    | none => runStreamLoop callback rest (acc ++ s)
  | StreamEvent.errSig none :: rest, acc => runStreamLoop callback rest acc
  | StreamEvent.errSig (some e) :: _, _ => some (StreamOutcome.errored (ServiceError.upstream e))

/-- Result of `StreamChat`: the returned user-message pointer, the returned
error, and the database state left behind. -/
structure StreamResult where
  userMsg : Option Message
  err : Option ServiceError
  db : DB
  deriving Repr, DecidableEq

/-- `ChatService.StreamChat`: verify ownership, persist the user message,
assemble the AI input, then drain the two conduits (`events` is the receive
schedule of one run of the provider stream on that input). On normal closure
the accumulated text is persisted as the assistant message and the
conversation's `updated_at` is bumped to its `CreatedAt`; on any abort the
user message is returned with the error and nothing else is written. `none`
means the schedule left the loop still waiting. -/
def streamChat (db : DB) (userId conversationId : Nat) (content : String)
    (callback : String → Option String)
    (events : List SchemaMessage → List StreamEvent) : Option StreamResult :=
  match firstConversationOwned db conversationId userId with
  | none => some ⟨none, some ServiceError.recordNotFound, db⟩
  | some _ =>
    let (userMessage, db1) := createMessage db conversationId "user" content
    let aiMessages := assembleAIInput db1 conversationId
    match runStreamLoop callback (events aiMessages) "" with
    | none => none
    | some (StreamOutcome.errored e) => some ⟨some userMessage, some e, db1⟩
    | some (StreamOutcome.done fullResponse) =>
      let (assistantMessage, db2) := createMessage db1 conversationId "assistant" fullResponse
      let db3 := updateConversationTimestamp db2 conversationId assistantMessage.createdAt
      some ⟨some userMessage, none, db3⟩

/-! ## Claim C3: pagination parameter handling -/

/-- C3, counterexample: the claim says an out-of-range `page_size` is clamped
into [1,100], so that `page_size=500` yields an effective page size of 100.
In the code both handlers reset an out-of-range value to the route's default
instead: 500 becomes 20 on the conversations listing and 50 on the messages
listing, neither of which is 100. -/
theorem c3_clamp_counterexample :
    effectivePageSizeConversations 500 = 20 ∧
    effectivePageSizeMessages 500 = 50 ∧
    effectivePageSizeConversations 500 ≠ 100 ∧
    effectivePageSizeMessages 500 ≠ 100 := by
  refine ⟨by decide, by decide, by decide, by decide⟩

/-- C3, amended: a `page_size` outside [1,100] is replaced by the listing's
default (20 for conversations, 50 for messages) rather than clamped to the
range boundary; an in-range `page_size` is used as given; and a page below 1
(in particular page=0) becomes page 1, an in-range page is used as given —
for both the conversations listing and the messages listing. -/
theorem c3_pagination (ps page : Int) :
    ((ps < 1 ∨ 100 < ps) →
      effectivePageSizeConversations ps = 20 ∧ effectivePageSizeMessages ps = 50) ∧
    (1 ≤ ps → ps ≤ 100 →
      effectivePageSizeConversations ps = ps ∧ effectivePageSizeMessages ps = ps) ∧
    (page < 1 → clampPage page = 1) ∧
    (1 ≤ page → clampPage page = page) := by
  refine ⟨?_, ?_, ?_, ?_⟩
  · intro h
    have hb : (ps < 1 || ps > 100) = true := by
      rcases h with h | h <;> simp [h]
    simp [effectivePageSizeConversations, effectivePageSizeMessages, hb]
  · intro h1 h2
    have hb : (ps < 1 || ps > 100) = false := by
      simp only [Bool.or_eq_false_iff, decide_eq_false_iff_not]
      omega
    simp [effectivePageSizeConversations, effectivePageSizeMessages, hb]
  · intro h
    simp [clampPage, h]
  · intro h
    have : ¬ page < 1 := by omega
    simp [clampPage, this]

/-- C3, witness for the amended statement at the concrete inputs of the claim:
page_size 500 is replaced by the defaults 20 and 50, and page 0 becomes 1. -/
theorem c3_pagination_witness :
    (effectivePageSizeConversations 500 = 20 ∧ effectivePageSizeMessages 500 = 50) ∧
    clampPage 0 = 1 :=
  ⟨(c3_pagination 500 0).1 (Or.inr (by decide)),
   (c3_pagination 500 0).2.2.1 (by decide)⟩

/-! ## Claim C9: unrecognized role tags fall back to the user role -/

/-- C9: any stored message whose role tag is none of "user", "assistant",
"system" is mapped to the user role by the role switch, and its image is part
of the AI input assembled (via `assembleAIInput`) by both SendMessage and
StreamChat whenever the message is in the selected history. -/
theorem c9_role_fallback (db : DB) (conversationId : Nat) (m : Message)
    (hmem : m ∈ historyMessages db conversationId)
    (h1 : m.role ≠ "user") (h2 : m.role ≠ "assistant") (h3 : m.role ≠ "system") :
    (toAIMessage m).role = RoleType.user ∧
    toAIMessage m ∈ assembleAIInput db conversationId := by
  constructor
  · simp [toAIMessage, mapRole, h1, h2, h3]
  · exact List.mem_map_of_mem toAIMessage hmem

/-- A one-conversation database whose single stored message carries the
unrecognized role tag "tool". -/
def dbC9 : DB :=
  ⟨[], [⟨1, 1, "t", 0, 0⟩], [⟨1, 1, "tool", "x", 0⟩], 2, 1⟩

/-- C9, witness: the "tool"-tagged message of `dbC9` is mapped to the user
role and appears as such in the assembled AI input. -/
theorem c9_role_fallback_witness :
    (toAIMessage ⟨1, 1, "tool", "x", 0⟩).role = RoleType.user ∧
    toAIMessage ⟨1, 1, "tool", "x", 0⟩ ∈ assembleAIInput dbC9 1 :=
  c9_role_fallback dbC9 1 ⟨1, 1, "tool", "x", 0⟩ (by decide)
    (by decide) (by decide) (by decide)

/-! ## Claim C4: which 20 messages feed the model -/

/-- The k-th message of the C4 scenario: conversation 1, creation time k. -/
def c4msg (k : Nat) : Message :=
  ⟨k + 1, 1, "user", "x", k⟩

/-- A conversation holding 21 messages, created at times 0..20. -/
def dbC4 : DB :=
  ⟨[], [⟨1, 1, "t", 0, 0⟩], (List.range 21).map c4msg, 30, 30⟩

/-- C4: the claim (and spec) say the history assembled as model input is the
20 most recent messages; the code's query is `ORDER BY created_at ASC LIMIT
20`, which keeps the 20 oldest instead. On a 21-message conversation the
history is messages 0..19 and the newest message (creation time 20) — here
the latest stored turn — is excluded, while the oldest (creation time 0) is
included. -/
theorem c4_history_keeps_oldest :
    historyMessages dbC4 1 = (List.range 20).map c4msg ∧
    c4msg 20 ∈ dbC4.messages ∧
    c4msg 20 ∉ historyMessages dbC4 1 ∧
    c4msg 0 ∈ historyMessages dbC4 1 := by
  refine ⟨by decide, by decide, by decide, by decide⟩

/-! ## Claim C2: deleting a conversation you do not own -/

/-- Two users; conversation 7 belongs to user 2 and holds one message. -/
def dbC2 : DB :=
  ⟨[⟨1, "a@x", "p", "A", "", true⟩, ⟨2, "b@x", "p", "B", "", true⟩],
   [⟨7, 2, "t", 0, 0⟩],
   [⟨1, 7, "user", "hi", 0⟩],
   10, 10⟩

/-- C2: the claim says DeleteConversation by a non-owner fails with NotFound
and changes neither table. In the code the message delete is not scoped to
the requesting user and a conversation delete matching zero rows is not an
error, so user 1 deleting user 2's conversation 7 gets a nil error (success)
while conversation 7's messages are deleted and its row survives. -/
theorem c2_delete_not_scoped :
    (deleteConversation dbC2 1 7 (fun _ => false)).1 = none ∧
    (deleteConversation dbC2 1 7 (fun _ => false)).2.messages = [] ∧
    (deleteConversation dbC2 1 7 (fun _ => false)).2.conversations = dbC2.conversations := by
  refine ⟨by decide, by decide, by decide⟩

/-! ## Claim C6: SendMessage on a non-owned conversation -/

/-- C6: when the ownership-scoped lookup finds no conversation for this user,
SendMessage returns the record-not-found error, returns no messages, and
leaves the whole database — every table — unchanged. -/
theorem c6_send_not_owned (db : DB) (userId conversationId : Nat) (content : String)
    (provider : List SchemaMessage → Except String String)
    (h : firstConversationOwned db conversationId userId = none) :
    sendMessage db userId conversationId content provider =
      ⟨none, none, some ServiceError.recordNotFound, db⟩ := by
  simp [sendMessage, h]

/-- A database where conversation 5 belongs to user 2, not user 1. -/
def dbC6 : DB :=
  ⟨[⟨1, "a@x", "p", "A", "", true⟩, ⟨2, "b@x", "p", "B", "", true⟩],
   [⟨5, 2, "t", 0, 0⟩], [], 6, 3⟩

/-- C6, witness: user 1 sending to conversation 5 (owned by user 2) gets the
not-found error and the database is untouched. -/
theorem c6_send_not_owned_witness :
    sendMessage dbC6 1 5 "hi" (fun _ => Except.ok "reply") =
      ⟨none, none, some ServiceError.recordNotFound, dbC6⟩ :=
  c6_send_not_owned dbC6 1 5 "hi" (fun _ => Except.ok "reply") (by decide)

/-! ## Claim C7: duplicate registration -/

/-- C7: when some user row already holds the requested email, Register
returns the conflict error and leaves the database unchanged — so no second
row is created and the first registration's row is untouched. -/
theorem c7_register_conflict (db : DB) (email password nickname : String)
    (h : (firstUserByEmail db email).isSome) :
    register db email password nickname = (Except.error ServiceError.emailExists, db) := by
  unfold register
  cases heq : firstUserByEmail db email with
  | none => rw [heq] at h; simp at h
  | some u => rfl

/-- The database produced by a first successful registration of
`alice@example.com` into an empty store. -/
def dbC7 : DB :=
  (register ⟨[], [], [], 1, 0⟩ "alice@example.com" "pw123456" "Alice").2

/-- C7, witness: after the first registration there is exactly one user row,
and a second registration with the same email yields the conflict error with
the store unchanged. -/
theorem c7_register_conflict_witness :
    dbC7.users.length = 1 ∧
    register dbC7 "alice@example.com" "other" "Bob" =
      (Except.error ServiceError.emailExists, dbC7) :=
  ⟨by decide, c7_register_conflict dbC7 "alice@example.com" "other" "Bob" (by decide)⟩

/-! ## Claim C10: AI failure in the non-streaming path -/

/-- C10: if the conversation is owned but the single-shot generate fails —
a transport error or an empty completion, i.e. any outcome `gen` on which
`generateResponse` errors — then SendMessage returns the persisted user
message together with that error, creates no assistant message, and the user
message is not rolled back: the final message table is exactly the old one
with the user message appended, and the other tables are unchanged. -/
theorem c10_send_ai_failure (db : DB) (userId conversationId : Nat) (content : String)
    (gen : Except String String) (e : ServiceError)
    (hconv : (firstConversationOwned db conversationId userId).isSome)
    (hgen : generateResponse gen = Except.error e) :
    ∃ um : Message,
      sendMessage db userId conversationId content (fun _ => gen) =
        ⟨some um, none, some e,
         { db with messages := db.messages ++ [um],
                   nextId := db.nextId + 1, now := db.now + 1 }⟩ ∧
      um.role = "user" ∧ um.content = content := by
  cases heq : firstConversationOwned db conversationId userId with
  | none => rw [heq] at hconv; simp at hconv
  | some conv =>
    refine ⟨⟨db.nextId, conversationId, "user", content, db.now⟩, ?_, rfl, rfl⟩
    simp [sendMessage, heq, createMessage, hgen]

/-- A database where conversation 3 belongs to user 1. -/
def dbC10 : DB :=
  ⟨[⟨1, "a@x", "p", "A", "", true⟩], [⟨3, 1, "t", 0, 0⟩], [], 4, 2⟩

/-- C10, witness: with the provider returning an empty completion (which
`GenerateResponse` turns into the `no response generated` error), the user
message row is kept, the error is returned, and no assistant row exists. -/
theorem c10_send_ai_failure_witness :
    ∃ um : Message,
      sendMessage dbC10 1 3 "hello" (fun _ => Except.ok "") =
        ⟨some um, none, some (ServiceError.upstream "no response generated"),
         { dbC10 with messages := dbC10.messages ++ [um],
                      nextId := dbC10.nextId + 1, now := dbC10.now + 1 }⟩ ∧
      um.role = "user" ∧ um.content = "hello" :=
  c10_send_ai_failure dbC10 1 3 "hello" (Except.ok "")
    (ServiceError.upstream "no response generated") (by decide) (by rfl)

/-! ## Claim C5: atomicity of the delete transaction -/

/-- C5: deleting one's own conversation is atomic. For a conversation row
owned by the requesting user (with `conversationId` identifying it uniquely),
whatever pattern of persistence failures the three transactional steps
exhibit, either the operation reports an error and the whole database is
exactly as before (rollback), or it succeeds and then the conversation row is
gone, every message of the conversation is gone, and every other
conversation, every message of other conversations, and the users table are
untouched — no partial state. -/
theorem c5_delete_atomic (db : DB) (userId conversationId : Nat)
    (conv : Conversation) (fails : TxStep → Bool)
    (hmem : conv ∈ db.conversations)
    (hid : conv.id = conversationId) (howner : conv.userId = userId)
    (huniq : ∀ c ∈ db.conversations, c.id = conversationId → c = conv) :
    ((deleteConversation db userId conversationId fails).1.isSome = true ∧
      (deleteConversation db userId conversationId fails).2 = db) ∨
    ((deleteConversation db userId conversationId fails).1 = none ∧
      conv ∉ (deleteConversation db userId conversationId fails).2.conversations ∧
      (∀ c ∈ db.conversations, c ≠ conv →
        c ∈ (deleteConversation db userId conversationId fails).2.conversations) ∧
      (∀ m ∈ (deleteConversation db userId conversationId fails).2.messages,
        m.conversationId ≠ conversationId) ∧
      (∀ m ∈ db.messages, m.conversationId ≠ conversationId →
        m ∈ (deleteConversation db userId conversationId fails).2.messages) ∧
      (deleteConversation db userId conversationId fails).2.users = db.users) := by
  by_cases h1 : fails TxStep.delMessages = true
  · left
    simp [deleteConversation, h1]
  · rw [Bool.not_eq_true] at h1
    by_cases h2 : fails TxStep.delConversation = true
    · left
      simp [deleteConversation, h1, h2]
    · rw [Bool.not_eq_true] at h2
      by_cases h3 : fails TxStep.commit = true
      · left
        simp [deleteConversation, h1, h2, h3]
      · rw [Bool.not_eq_true] at h3
        right
        have hres : deleteConversation db userId conversationId fails =
            (none, { db with
              messages := db.messages.filter
                (fun m => !(m.conversationId == conversationId)),
              conversations := db.conversations.filter
                (fun c => !(c.id == conversationId && c.userId == userId)) }) := by
          simp [deleteConversation, h1, h2, h3]
        rw [hres]
        refine ⟨rfl, ?_, ?_, ?_, ?_, rfl⟩
        · simp [List.mem_filter, hid, howner]
        · intro c hc hne
          refine List.mem_filter.mpr ⟨hc, ?_⟩
          simp only [Bool.not_eq_true', Bool.and_eq_false_iff, beq_eq_false_iff_ne]
          by_cases hcid : c.id = conversationId
          · exact absurd (huniq c hc hcid) hne
          · exact Or.inl hcid
        · intro m hm
          have h := (List.mem_filter.mp hm).2
          simpa using h
        · intro m hm hne
          exact List.mem_filter.mpr ⟨hm, by simpa using hne⟩

/-- The conversation of the C5 scenario: id 7, owned by user 1. -/
def convC5 : Conversation := ⟨7, 1, "t", 0, 0⟩

/-- One user; conversations 7 (user 1) and 8 (user 2); one message in each. -/
def dbC5 : DB :=
  ⟨[⟨1, "a@x", "p", "A", "", true⟩],
   [convC5, ⟨8, 2, "u", 0, 0⟩],
   [⟨1, 7, "user", "hi", 0⟩, ⟨2, 8, "user", "yo", 1⟩],
   10, 5⟩

/-- C5, witness: user 1 deleting their conversation 7 with no step failing
lands in the success disjunct — the row and its message are gone, everything
else survives. -/
theorem c5_delete_atomic_witness :
    ((deleteConversation dbC5 1 7 (fun _ => false)).1.isSome = true ∧
      (deleteConversation dbC5 1 7 (fun _ => false)).2 = dbC5) ∨
    ((deleteConversation dbC5 1 7 (fun _ => false)).1 = none ∧
      convC5 ∉ (deleteConversation dbC5 1 7 (fun _ => false)).2.conversations ∧
      (∀ c ∈ dbC5.conversations, c ≠ convC5 →
        c ∈ (deleteConversation dbC5 1 7 (fun _ => false)).2.conversations) ∧
      (∀ m ∈ (deleteConversation dbC5 1 7 (fun _ => false)).2.messages,
        m.conversationId ≠ 7) ∧
      (∀ m ∈ dbC5.messages, m.conversationId ≠ 7 →
        m ∈ (deleteConversation dbC5 1 7 (fun _ => false)).2.messages) ∧
      (deleteConversation dbC5 1 7 (fun _ => false)).2.users = dbC5.users) :=
  c5_delete_atomic dbC5 1 7 convC5 (fun _ => false)
    (by decide) (by decide) (by decide) (by decide)

/-! ## Claim C8: successful SendMessage -/

/-- C8: on an owned conversation, with the provider producing the non-empty
completion `s`, SendMessage succeeds returning the user message (role "user",
content equal to the input) and the assistant message (role "assistant");
both are persisted, and every conversation row carrying this conversation's
id — in particular the owned row, which exists — has its `updated_at` equal
to the assistant message's `created_at`. -/
theorem c8_send_success (db : DB) (userId conversationId : Nat) (content s : String)
    (hconv : (firstConversationOwned db conversationId userId).isSome)
    (hs : s ≠ "") :
    ∃ um am : Message,
      (sendMessage db userId conversationId content (fun _ => Except.ok s)).userMsg
        = some um ∧
      (sendMessage db userId conversationId content (fun _ => Except.ok s)).assistantMsg
        = some am ∧
      (sendMessage db userId conversationId content (fun _ => Except.ok s)).err = none ∧
      um.role = "user" ∧ um.content = content ∧
      am.role = "assistant" ∧ am.content = s ∧
      um ∈ (sendMessage db userId conversationId content (fun _ => Except.ok s)).db.messages ∧
      am ∈ (sendMessage db userId conversationId content (fun _ => Except.ok s)).db.messages ∧
      (∃ c ∈ (sendMessage db userId conversationId content (fun _ => Except.ok s)).db.conversations,
        c.id = conversationId ∧ c.updatedAt = am.createdAt) ∧
      (∀ c ∈ (sendMessage db userId conversationId content (fun _ => Except.ok s)).db.conversations,
        c.id = conversationId → c.updatedAt = am.createdAt) := by
  cases heq : firstConversationOwned db conversationId userId with
  | none => rw [heq] at hconv; simp at hconv
  | some conv =>
    have hsb : (s == "") = false := beq_eq_false_iff_ne.mpr hs
    have hgen : generateResponse (Except.ok s) = Except.ok s := by
      simp [generateResponse, hsb]
    have hres : sendMessage db userId conversationId content (fun _ => Except.ok s) =
        ⟨some ⟨db.nextId, conversationId, "user", content, db.now⟩,
         some ⟨db.nextId + 1, conversationId, "assistant", s, db.now + 1⟩,
         none,
         updateConversationTimestamp
           { db with
             messages := (db.messages ++ [⟨db.nextId, conversationId, "user", content, db.now⟩])
               ++ [⟨db.nextId + 1, conversationId, "assistant", s, db.now + 1⟩],
             nextId := db.nextId + 1 + 1, now := db.now + 1 + 1 }
           conversationId (db.now + 1)⟩ := by
      simp [sendMessage, heq, createMessage, hgen]
    have heq' : List.find? (fun c => c.id == conversationId && c.userId == userId)
        db.conversations = some conv := heq
    have hconvmem : conv ∈ db.conversations := List.mem_of_find?_eq_some heq'
    have hp : (conv.id == conversationId && conv.userId == userId) = true := by
      have h := List.find?_some (p := fun c : Conversation =>
        c.id == conversationId && c.userId == userId) heq'
      simpa using h
    have hcid : conv.id = conversationId := by
      have h := hp
      rw [Bool.and_eq_true] at h
      exact beq_iff_eq.mp h.1
    refine ⟨⟨db.nextId, conversationId, "user", content, db.now⟩,
            ⟨db.nextId + 1, conversationId, "assistant", s, db.now + 1⟩,
            ?_, ?_, ?_, rfl, rfl, rfl, rfl, ?_, ?_, ?_, ?_⟩
    · rw [hres]
    · rw [hres]
    · rw [hres]
    · rw [hres]
      simp [updateConversationTimestamp]
    · rw [hres]
      simp [updateConversationTimestamp]
    · rw [hres]
      refine ⟨{ conv with updatedAt := db.now + 1 }, ?_, hcid, rfl⟩
      simp only [updateConversationTimestamp]
      refine List.mem_map.mpr ⟨conv, hconvmem, ?_⟩
      simp [hcid]
    · rw [hres]
      intro c hc hcid2
      simp only [updateConversationTimestamp] at hc
      obtain ⟨a, ha, hfa⟩ := List.mem_map.mp hc
      by_cases haid : a.id = conversationId
      · rw [← hfa]
        simp [haid]
      · have : (a.id == conversationId) = false := beq_eq_false_iff_ne.mpr haid
        rw [← hfa] at hcid2
        simp [this] at hcid2
        exact absurd hcid2 haid

/-- A database where conversation 3 belongs to user 1 (C8 scenario). -/
def dbC8 : DB :=
  ⟨[⟨1, "a@x", "p", "A", "", true⟩], [⟨3, 1, "t", 0, 7⟩], [], 4, 2⟩

/-- C8, witness: sending "hello" on conversation 3 with the provider
answering "world" returns both messages with the claimed roles and contents,
and the conversation row's `updated_at` equals the assistant's `created_at`. -/
theorem c8_send_success_witness :
    ∃ um am : Message,
      (sendMessage dbC8 1 3 "hello" (fun _ => Except.ok "world")).userMsg = some um ∧
      (sendMessage dbC8 1 3 "hello" (fun _ => Except.ok "world")).assistantMsg = some am ∧
      (sendMessage dbC8 1 3 "hello" (fun _ => Except.ok "world")).err = none ∧
      um.role = "user" ∧ um.content = "hello" ∧
      am.role = "assistant" ∧ am.content = "world" ∧
      um ∈ (sendMessage dbC8 1 3 "hello" (fun _ => Except.ok "world")).db.messages ∧
      am ∈ (sendMessage dbC8 1 3 "hello" (fun _ => Except.ok "world")).db.messages ∧
      (∃ c ∈ (sendMessage dbC8 1 3 "hello" (fun _ => Except.ok "world")).db.conversations,
        c.id = 3 ∧ c.updatedAt = am.createdAt) ∧
      (∀ c ∈ (sendMessage dbC8 1 3 "hello" (fun _ => Except.ok "world")).db.conversations,
        c.id = 3 → c.updatedAt = am.createdAt) :=
  c8_send_success dbC8 1 3 "hello" "world" (by decide) (by decide)

/-! ## Claim C1: provider abort during streaming -/

/-- An event on which the streaming loop keeps going: a chunk the callback
accepts, or a nil error signal. -/
def quietEvent (callback : String → Option String) : StreamEvent → Bool
  | StreamEvent.chunk s => (callback s).isNone
  | StreamEvent.errSig x => x.isNone
  | StreamEvent.closed => false

/-- If the schedule delivers only quiet events and then a non-nil error on
the error conduit, the streaming loop aborts with that error, whatever text
it has accumulated. -/
theorem runStreamLoop_reaches_error (callback : String → Option String)
    (e : String) (pre rest : List StreamEvent) (acc : String)
    (hq : ∀ ev ∈ pre, quietEvent callback ev = true) :
    runStreamLoop callback (pre ++ StreamEvent.errSig (some e) :: rest) acc =
      some (StreamOutcome.errored (ServiceError.upstream e)) := by
  induction pre generalizing acc with
  | nil => rfl
  | cons ev tail ih =>
    cases ev with
    | chunk s =>
      have h := hq (StreamEvent.chunk s) (List.mem_cons_self _ _)
      rw [quietEvent, Option.isNone_iff_eq_none] at h
      rw [List.cons_append, runStreamLoop, h]
      exact ih _ (fun x hx => hq x (List.mem_cons_of_mem _ hx))
    | errSig x =>
      have h := hq (StreamEvent.errSig x) (List.mem_cons_self _ _)
      rw [quietEvent, Option.isNone_iff_eq_none] at h
      subst h
      rw [List.cons_append, runStreamLoop]
      exact ih _ (fun x hx => hq x (List.mem_cons_of_mem _ hx))
    | closed =>
      have h := hq StreamEvent.closed (List.mem_cons_self _ _)
      rw [quietEvent] at h
      exact absurd h (by simp)

/-- C1: on an owned conversation, along any receive schedule whose events
before the abort are quiet (chunks the callback forwards successfully, nil
error signals) and on which the error conduit then yields the non-nil error
`e`, StreamChat returns that error together with the persisted user message
(role "user", content equal to the input); the final message table is exactly
the old one with that user message appended — so no assistant message row is
created — and the other tables are unchanged. -/
theorem c1_stream_provider_error (db : DB) (userId conversationId : Nat)
    (content : String) (callback : String → Option String)
    (pre rest : List StreamEvent) (e : String)
    (hconv : (firstConversationOwned db conversationId userId).isSome)
    (hq : ∀ ev ∈ pre, quietEvent callback ev = true) :
    ∃ um : Message,
      streamChat db userId conversationId content callback
        (fun _ => pre ++ StreamEvent.errSig (some e) :: rest) =
        some ⟨some um, some (ServiceError.upstream e),
          { db with messages := db.messages ++ [um],
                    nextId := db.nextId + 1, now := db.now + 1 }⟩ ∧
      um.role = "user" ∧ um.content = content := by
  cases heq : firstConversationOwned db conversationId userId with
  | none => rw [heq] at hconv; simp at hconv
  | some conv =>
    refine ⟨⟨db.nextId, conversationId, "user", content, db.now⟩, ?_, rfl, rfl⟩
    simp [streamChat, heq, createMessage,
      runStreamLoop_reaches_error callback e pre rest "" hq]

/-- A database where conversation 3 belongs to user 1 (C1 scenario). -/
def dbC1 : DB :=
  ⟨[⟨1, "a@x", "p", "A", "", true⟩], [⟨3, 1, "t", 0, 0⟩], [], 4, 2⟩

/-- C1, witness: the provider delivers one chunk and a nil error signal, then
aborts with "boom"; the turn ends with that error, the user message row
appended, and no assistant row. -/
theorem c1_stream_provider_error_witness :
    ∃ um : Message,
      streamChat dbC1 1 3 "hi" (fun _ => none)
        (fun _ => [StreamEvent.chunk "He", StreamEvent.errSig none] ++
          StreamEvent.errSig (some "boom") :: []) =
        some ⟨some um, some (ServiceError.upstream "boom"),
          { dbC1 with messages := dbC1.messages ++ [um],
                      nextId := dbC1.nextId + 1, now := dbC1.now + 1 }⟩ ∧
      um.role = "user" ∧ um.content = "hi" :=
  c1_stream_provider_error dbC1 1 3 "hi" (fun _ => none)
    [StreamEvent.chunk "He", StreamEvent.errSig none] [] "boom"
    (by decide) (by decide)

end ChatBackend
